import Mathlib

/-!
Verification of the Dell Unity Unisphere backup automation tool
(src/create_unity_backup.py) against its natural-language specification.

The development shallowly embeds the pure decision logic of the script:

* string helpers mirroring the Python primitives used by the script
  (str.lower, str.endswith, substring membership, str.strip,
  os.path.splitext, the re.search for the host IP);
* the locator-chain resolution loops of UnityBackup.login and
  UnityBackup.backup_workflow as a generic first-success fold;
* the download watch loops of UnityBackup.backup_workflow and
  UnityBackup.encryption_keystore_backup as a bounded polling recursion
  over successive directory listings;
* the archive renaming and shutil.move step;
* the control flow of main (try / except Exception / finally close)
  as a function from step outcomes to an event trace and an exit code.

Side effects (logging, screenshots, real sleeping) are represented only
where a claim talks about them: sleeps are accounted as numbers, clicks
and teardown as events in a trace.
-/

namespace Unity

/-! ## String primitives mirroring the Python ones used by the script -/

/-- Boolean list-level check that the first list is an initial segment of
the second, mirroring how Python compares a candidate against the start
of a character sequence. -/
def isPrefixL : List Char → List Char → Bool
  | [], _ => true
  | _ :: _, [] => false
  | a :: as, b :: bs => a == b && isPrefixL as bs

/-- Helper for substring search: does the needle occur in the haystack at
any position. -/
def substrAux (needle : List Char) : List Char → Bool
  | [] => isPrefixL needle []
  | c :: rest => isPrefixL needle (c :: rest) || substrAux needle rest

/-- Model of the Python membership test on strings: does the second
string occur as a contiguous substring of the first. -/
def strContains (hay needle : String) : Bool :=
  substrAux needle.toList hay.toList

/-- Model of the Python str.endswith test. -/
def strEndsWith (s suffix : String) : Bool :=
  isPrefixL suffix.toList.reverse s.toList.reverse

/-- Model of the Python str.lower for the ASCII names the script
handles. -/
def pyLower (s : String) : String :=
  String.mk (s.toList.map Char.toLower)

/-- Model of the Python str.strip: drop whitespace from both ends. -/
def pyStrip (s : String) : String :=
  String.mk (((s.toList.dropWhile Char.isWhitespace).reverse.dropWhile
    Char.isWhitespace).reverse)

/-! ## Download watcher

UnityBackup.backup_workflow lines 394-437 and
UnityBackup.encryption_keystore_backup lines 710-755 both run

  before_files = set(os.listdir(download_dir))
  while elapsed < timeout:
      after_files = set(os.listdir(download_dir))
      new_files = after_files - before_files
      for f in new_files:
          if predicate(f): ... break
      if backup_file: ... return True
      time.sleep(poll_interval); elapsed += poll_interval

with timeout = 120 and poll_interval = 2. -/

/-- The set difference after - before of the two directory listings, on
listings represented as lists in directory order. -/
def newFiles (after before : List String) : List String :=
  after.filter (fun f => !(before.contains f))

/-- One tick of the watch loop body: scan the new files for the first
one satisfying the predicate. -/
def findNewFile (after before : List String) (pred : String → Bool) :
    Option String :=
  (newFiles after before).find? pred

/-- The watch loop. `listings t` is the directory listing observed at
tick `t`; the loop runs for at most `fuel` iterations, returning the
matched filename (and sleeping no further) as soon as one tick finds a
qualifying new file, and otherwise sleeping `poll` seconds per
iteration. The second component accounts the total seconds slept. -/
def awaitDownload (listings : Nat → List String) (before : List String)
    (pred : String → Bool) (poll : Nat) : Nat → Nat → Option String × Nat
  | 0, _ => (none, 0)
  | fuel + 1, tick =>
    match findNewFile (listings tick) before pred with
    | some f => (some f, 0)
    | none =>
      let r := awaitDownload listings before pred poll fuel (tick + 1)
      (r.1, poll + r.2)

/-- Number of iterations the while loop executes when no file ever
appears: elapsed takes the values 0, poll, 2*poll, ... while
elapsed < timeout, i.e. the ceiling of timeout / poll. -/
def numIters (timeout poll : Nat) : Nat :=
  (timeout + poll - 1) / poll

/-- The hardcoded timeout of both watch loops, in seconds. -/
def watchTimeoutS : Nat := 120

/-- The hardcoded poll interval of both watch loops, in seconds. -/
def pollIntervalS : Nat := 2

/-- The acceptance predicate of the configuration-backup watch
(line 405): lowercased name ends in .cfg, or contains backup, or ends
in .html. -/
def configBackupPred (f : String) : Bool :=
  strEndsWith (pyLower f) ".cfg" || strContains (pyLower f) "backup" ||
    strEndsWith (pyLower f) ".html"

/-- The acceptance predicate of the keystore watch (line 721):
lowercased name ends in .lbb. -/
def keystorePred (f : String) : Bool :=
  strEndsWith (pyLower f) ".lbb"

/-! ## Locator-chain resolution

UnityBackup.login lines 159-179 (username_selectors) and lines 225-240
(login_button_selectors), and UnityBackup.backup_workflow lines 301-325
(execute_xpaths), all run the same loop shape:

  for selector in selectors:
      try: element = wait.until(...); break
      except: continue

`ok l` abstracts whether the attempt with locator `l` succeeds (the
element resolves, and where the loop also clicks, the click goes
through). The first component of the result is the list of locators
actually attempted, in order; the second is the resolved locator, if
any. -/
def resolveChain {α : Type} (ok : α → Bool) : List α → List α × Option α
  | [] => ([], none)
  | l :: ls =>
    if ok l then ([l], some l)
    else
      let r := resolveChain ok ls
      (l :: r.1, r.2)

/-! ## Artifact archiver

backup_workflow lines 412-433 and encryption_keystore_backup lines
727-751: extract the host IP from the URL with
re.search(https?://([0-9.]+)) and replace dots by underscores, take the
extension with os.path.splitext, compose the target name, and
shutil.move the downloaded file. -/

/-- Is the character one the IP group of the regex accepts: a digit or
a dot. -/
def isIpChar (c : Char) : Bool :=
  c.isDigit || c == '.'

/-- Try to match the regex https?:// at the point just after a literal
http, returning the remaining characters when it matches. -/
def afterHttp : List Char → Option (List Char)
  | 's' :: ':' :: '/' :: '/' :: r => some r
  | ':' :: '/' :: '/' :: r => some r
  | _ => none

/-- Try to match the whole regex at the current position, returning the
captured group of digits and dots (which must be nonempty). -/
def matchIpAt (cs : List Char) : Option (List Char) :=
  match cs with
  | 'h' :: 't' :: 't' :: 'p' :: r =>
    match afterHttp r with
    | some r2 =>
      let g := r2.takeWhile isIpChar
      if g.isEmpty then none else some g
    | none => none
  | _ => none

/-- Model of re.search: leftmost match of the pattern anywhere in the
string, maximal captured group. -/
def searchIp : List Char → Option (List Char)
  | [] => none
  | c :: cs =>
    match matchIpAt (c :: cs) with
    | some g => some g
    | none => searchIp cs

/-- The host identifier used in archive names: the captured IP with
dots replaced by underscores, or the literal unknown_ip fallback
(lines 415-416 and 730-735). -/
def extractUnityIp (url : String) : String :=
  match searchIp url.toList with
  | some g => String.mk (g.map (fun c => if c == '.' then '_' else c))
  | none => "unknown_ip"

/-- Index of the last dot in a character list, if any. -/
def lastDotIdx (cs : List Char) : Option Nat :=
  (List.range cs.length).foldl
    (fun acc i => if cs.get? i == some '.' then some i else acc) none

/-- Model of os.path.splitext applied to a bare filename (the script
applies it to entries of os.listdir): the extension starts at the last
dot, except when every character before that dot is itself a dot, in
which case the extension is empty. -/
def splitextExt (name : String) : String :=
  let cs := name.toList
  match lastDotIdx cs with
  | none => ""
  | some i =>
    if (cs.take i).any (fun c => !(c == '.')) then String.mk (cs.drop i)
    else ""

/-- The configuration-backup archive name (line 422):
unity_backup_ then the timestamp, then -IP-, then the normalized host,
then the original extension. -/
def configBackupName (dateStr unityUrl backupFile : String) : String :=
  "unity_backup_" ++ dateStr ++ "-IP-" ++ extractUnityIp unityUrl ++
    splitextExt backupFile

/-- The keystore archive name (line 740): same shape with the
Unity-Encryption-Backup kind marker. -/
def keystoreBackupName (dateStr unityUrl backupFile : String) : String :=
  "Unity-Encryption-Backup_" ++ dateStr ++ "-IP-" ++
    extractUnityIp unityUrl ++ splitextExt backupFile

/-- Model of shutil.move on a file system given as the list of existing
paths: the source path is removed and the target path is created. -/
def moveFile (src tgt : String) (fs : List String) : List String :=
  tgt :: fs.filter (fun p => !(p == src))

/-! ## Login (UnityBackup.login, lines 127-273)

The environment records which of the attempted UI interactions would
succeed on the live page, plus whether the submitted credentials are
actually valid — a fact the code never consults, which is exactly what
claim C8 is about. -/

structure LoginEnv where
  /-- The body text contains the security-acceptance phrase
  (line 145). -/
  securityPage : Bool
  /-- The accept button resolves and its click succeeds (line 148). -/
  acceptClickable : Bool
  /-- Which of the seven username selectors resolve (lines 159-167). -/
  userSel : List Bool
  /-- The password field resolves (line 215). -/
  passSel : Bool
  /-- Which of the five login-button selectors resolve
  (lines 225-231). -/
  btnSel : List Bool
  /-- Whether the submitted credentials are actually valid. The code
  never reads this. -/
  authOk : Bool

/-- The login procedure: result flag and the list of time.sleep
durations executed, in order. Lines 138 (sleep 5), 151 (sleep 3 after
accepting the interstitial), 244 (sleep 20 after clicking the login
button, after which True is returned unconditionally). -/
def loginRun (e : LoginEnv) : Bool × List Nat :=
  let s0 := [5]
  if e.securityPage && !e.acceptClickable then (false, s0)
  else
    let s1 := if e.securityPage then s0 ++ [3] else s0
    if (resolveChain id e.userSel).2.isNone then (false, s1)
    else if !e.passSel then (false, s1)
    else if (resolveChain id e.btnSel).2.isNone then (false, s1)
    else (true, s1 ++ [20])

/-! ## Main control flow (main, lines 780-821)

  backup_creator = UnityBackup(...)
  try:
      backup_creator.start_driver()          # sys.exit(1) on failure
      if backup_creator.login():
          if backup_creator.backup_workflow():
              ...navigate to dashboard...
              if backup_creator.encryption_keystore_backup(): ...
          else: print failed
      else: log login failed
  except Exception as e: log
  finally: backup_creator.close()

start_driver failing raises SystemExit(1), which except Exception does
not catch, but the finally clause still runs close before the process
exits with status 1. Every other path falls out of main normally, so
the process exits with status 0. login and backup_workflow wrap their
whole bodies in try/except and so return booleans; the keystore watch
loop (lines 708-755) is outside any try and can raise, in which case
the except Exception branch in main catches it. -/

/-- Observable events of one run, in order. -/
inductive Event
  | startDriver
  | loginAttempt
  | backupAttempt
  | dashboardNav
  | keystoreAttempt
  | exceptionCaught
  | closeDriver
deriving DecidableEq

/-- Outcomes of the individual steps of one run. -/
structure Env where
  /-- start_driver succeeds (otherwise it calls sys.exit(1)). -/
  driverStartOk : Bool
  /-- login returns True. -/
  loginOk : Bool
  /-- The navigation and clicks of backup_workflow succeed
  (lines 279-391). -/
  backupStepsOk : Bool
  /-- The configuration-backup download appears within the timeout. -/
  backupDownloadOk : Bool
  /-- The shutil.move of the configuration backup succeeds
  (line 428). -/
  backupMoveOk : Bool
  /-- The navigation and clicks of encryption_keystore_backup succeed
  (lines 444-707). -/
  keystoreStepsOk : Bool
  /-- The keystore download appears within the timeout. -/
  keystoreDownloadOk : Bool
  /-- The shutil.move of the keystore backup succeeds (line 746). -/
  keystoreMoveOk : Bool
  /-- The keystore phase raises an exception that escapes to main. -/
  keystoreThrows : Bool

/-- Return value of backup_workflow: True only when the UI steps, the
download watch and the archive move all succeed (lines 430-433 return
False on a move failure). -/
def backupWorkflowResult (e : Env) : Bool :=
  e.backupStepsOk && (e.backupDownloadOk && e.backupMoveOk)

/-- Return value of encryption_keystore_backup, same shape
(lines 748-751). -/
def keystoreResult (e : Env) : Bool :=
  e.keystoreStepsOk && (e.keystoreDownloadOk && e.keystoreMoveOk)

/-- The try/except/finally body of main: the trace of events and the
process exit status. -/
def mainRun (e : Env) : List Event × Nat :=
  if !e.driverStartOk then
    ([Event.startDriver, Event.closeDriver], 1)
  else if !e.loginOk then
    ([Event.startDriver, Event.loginAttempt, Event.closeDriver], 0)
  else if !(backupWorkflowResult e) then
    ([Event.startDriver, Event.loginAttempt, Event.backupAttempt,
      Event.closeDriver], 0)
  else if e.keystoreThrows then
    ([Event.startDriver, Event.loginAttempt, Event.backupAttempt,
      Event.dashboardNav, Event.keystoreAttempt, Event.exceptionCaught,
      Event.closeDriver], 0)
  else
    ([Event.startDriver, Event.loginAttempt, Event.backupAttempt,
      Event.dashboardNav, Event.keystoreAttempt, Event.closeDriver], 0)

/-- The whole process including the invocation phase before the
try block: argparse exits with status 2 on bad arguments, and main
exits with status 1 when the password file cannot be read
(lines 786-792), both before any session exists. -/
def processRun (argsOk passwordFileOk : Bool) (e : Env) :
    List Event × Nat :=
  if !argsOk then ([], 2)
  else if !passwordFileOk then ([], 1)
  else mainRun e

/-! ## Password file (main, lines 784-792)

  password = args.password
  if args.password_file:
      with open(args.password_file) as f:
          password = f.read().strip()
-/

/-- The password the code derives from the password file: the entire
file content with surrounding whitespace stripped. -/
def passwordFromFile (content : String) : String :=
  pyStrip content

/-- The password the spec describes, stated from the spec words for
comparison with the code: the first line of the file with surrounding
whitespace trimmed. -/
def specFirstLineTrimmed (content : String) : String :=
  pyStrip (String.mk (content.toList.takeWhile (fun c => !(c == '\n'))))

/-! ## Helper lemmas -/

/-- Filtering then scanning for the first hit is the same as taking the
head of the doubly filtered list. -/
theorem find_filter_eq_head {α : Type} (p q : α → Bool) (l : List α) :
    (l.filter p).find? q = (l.filter (fun x => p x && q x)).head? := by
  induction l with
  | nil => rfl
  | cons a l ih =>
    by_cases hp : p a = true
    · by_cases hq : q a = true
      · simp [List.filter_cons, hp, hq, List.find?]
      · have hq' : q a = false := by
          cases h : q a
          · rfl
          · exact absurd h hq
        simp [List.filter_cons, hp, hq', List.find?, ih]
    · have hp' : p a = false := by
        cases h : p a
        · rfl
        · exact absurd h hp
      simp [List.filter_cons, hp', ih]

/-- When the watch predicate never fires, the loop burns all its fuel,
sleeping once per iteration. -/
theorem awaitDownload_none (listings : Nat → List String)
    (before : List String) (pred : String → Bool) (poll : Nat)
    (h : ∀ t, findNewFile (listings t) before pred = none) :
    ∀ fuel tick, awaitDownload listings before pred poll fuel tick =
      (none, poll * fuel) := by
  intro fuel
  induction fuel with
  | zero => intro tick; simp [awaitDownload]
  | succ f ih =>
    intro tick
    simp only [awaitDownload, h tick, ih (tick + 1)]
    simp [Nat.mul_succ]
    omega

/-- takeWhile keeps a whole list all of whose elements satisfy the
predicate. -/
theorem takeWhile_of_all {α : Type} (p : α → Bool) :
    ∀ l : List α, (∀ x ∈ l, p x = true) → l.takeWhile p = l := by
  intro l h
  induction l with
  | nil => rfl
  | cons a l ih =>
    rw [List.takeWhile_cons, h a (List.mem_cons_self a l)]
    simp only [ih (fun x hx => h x (List.mem_cons_of_mem a hx))]
    simp

/-! ## Claims -/

/-- Claim C1: for every locator chain in which the locator at position
n (0-based; the Nth of the claim) is the first one that resolves to a
clickable element, resolution attempts exactly the locators up to and
including position n, in chain order, succeeds with that locator, and
attempts none after it. -/
theorem locator_chain_first_success {α : Type} (ok : α → Bool)
    (chain : List α) (n : Nat) (target : α)
    (hget : chain.get? n = some target) (htrue : ok target = true)
    (hbefore : ∀ x ∈ chain.take n, ok x = false) :
    resolveChain ok chain = (chain.take (n + 1), some target) := by
  induction chain generalizing n with
  | nil => simp at hget
  | cons l ls ih =>
    cases n with
    | zero =>
      have hl : l = target := by simpa using hget
      subst hl
      simp [resolveChain, htrue]
    | succ m =>
      have hl : ok l = false := by
        apply hbefore
        simp [List.take]
      have hrec := ih m (by simpa using hget)
        (fun x hx => hbefore x (by simp [List.take]; right; exact hx))
      simp [resolveChain, hl, hrec, List.take]

/-- Claim C1 witness: in the chain 0,1,2,3 where only locator 2
resolves, exactly 0,1,2 are attempted and 2 is returned. -/
theorem locator_chain_first_success_witness :
    resolveChain (fun k => k == 2) [0, 1, 2, 3] = ([0, 1, 2], some 2) :=
  locator_chain_first_success (fun k => k == 2) [0, 1, 2, 3] 2 2
    (by decide) (by decide) (by decide)

/-- Claim C2: the watcher considers a filename only when it is in the
set difference after - before, and it returns the first such new file
matching the predicate; concretely, with baseline a.txt, later state
a.txt plus b.cfg, and the .cfg suffix predicate, the watch loop
returns b.cfg. -/
theorem watcher_returns_new_match :
    (∀ (before after : List String) (pred : String → Bool) (x : String),
        findNewFile after before pred = some x →
          x ∈ after ∧ before.contains x = false ∧ pred x = true ∧
            (after.filter
              (fun y => !(before.contains y) && pred y)).head? = some x) ∧
    (awaitDownload (fun _ => ["a.txt", "b.cfg"]) ["a.txt"]
        (fun f => strEndsWith (pyLower f) ".cfg") pollIntervalS
        (numIters watchTimeoutS pollIntervalS) 0).1 = some "b.cfg" := by
  constructor
  · intro before after pred x h
    unfold findNewFile newFiles at h
    rw [find_filter_eq_head] at h
    cases hfl : after.filter (fun y => !(before.contains y) && pred y) with
    | nil => rw [hfl] at h; simp at h
    | cons y ys =>
      rw [hfl] at h
      have hxy : y = x := by simpa [List.head?] using h
      subst hxy
      have hy : y ∈ after.filter (fun z => !(before.contains z) && pred z) := by
        rw [hfl]; exact List.mem_cons_self y ys
      have hmf := List.mem_filter.mp hy
      have hb : !(before.contains y) = true ∧ pred y = true := by
        simpa [Bool.and_eq_true] using hmf.2
      refine ⟨hmf.1, ?_, hb.2, rfl⟩
      simpa using hb.1
  · rfl

/-- Claim C2 witness: the concrete baseline and later state from the
claim, routed through the general part of the theorem. -/
theorem watcher_returns_new_match_witness :
    "b.cfg" ∈ ["a.txt", "b.cfg"] ∧
      (["a.txt"] : List String).contains "b.cfg" = false ∧
      (fun f => strEndsWith (pyLower f) ".cfg") "b.cfg" = true ∧
      ((["a.txt", "b.cfg"] : List String).filter
        (fun y => !((["a.txt"] : List String).contains y) &&
          (fun f => strEndsWith (pyLower f) ".cfg") y)).head? =
        some "b.cfg" :=
  watcher_returns_new_match.1 ["a.txt"] ["a.txt", "b.cfg"]
    (fun f => strEndsWith (pyLower f) ".cfg") "b.cfg" (by decide)

/-- Claim C3: when no qualifying new file ever appears, the watch loop
terminates with no result (the caller then reports failure), the total
sleep equals the 120 second timeout, and in particular never exceeds
timeout plus poll interval. -/
theorem watcher_timeout_bound (listings : Nat → List String)
    (before : List String) (pred : String → Bool)
    (h : ∀ t, findNewFile (listings t) before pred = none) :
    (awaitDownload listings before pred pollIntervalS
        (numIters watchTimeoutS pollIntervalS) 0).1 = none ∧
    (awaitDownload listings before pred pollIntervalS
        (numIters watchTimeoutS pollIntervalS) 0).2 = watchTimeoutS ∧
    (awaitDownload listings before pred pollIntervalS
        (numIters watchTimeoutS pollIntervalS) 0).2 ≤
      watchTimeoutS + pollIntervalS := by
  rw [awaitDownload_none listings before pred pollIntervalS h]
  refine ⟨rfl, by decide, by decide⟩

/-- Claim C3 witness: a directory whose listing never changes from the
baseline. -/
theorem watcher_timeout_bound_witness :
    (awaitDownload (fun _ => ["a.txt"]) ["a.txt"]
        (fun f => strEndsWith (pyLower f) ".cfg") pollIntervalS
        (numIters watchTimeoutS pollIntervalS) 0).1 = none ∧
    (awaitDownload (fun _ => ["a.txt"]) ["a.txt"]
        (fun f => strEndsWith (pyLower f) ".cfg") pollIntervalS
        (numIters watchTimeoutS pollIntervalS) 0).2 = watchTimeoutS ∧
    (awaitDownload (fun _ => ["a.txt"]) ["a.txt"]
        (fun f => strEndsWith (pyLower f) ".cfg") pollIntervalS
        (numIters watchTimeoutS pollIntervalS) 0).2 ≤
      watchTimeoutS + pollIntervalS :=
  watcher_timeout_bound (fun _ => ["a.txt"]) ["a.txt"]
    (fun f => strEndsWith (pyLower f) ".cfg") (fun _ => rfl)

/-- Claim C4: the archived filename is the kind marker, the timestamp,
the literal -IP-, the host with dots replaced by underscores, and the
original extension; for source report.cfg and host 10.0.0.5 this is
unity_backup_ then the timestamp then -IP-10_0_0_5.cfg; and after the
move the source file no longer exists at its original path. -/
theorem archive_name_and_move (dateStr : String) (fs : List String)
    (src tgt : String) (hne : src ≠ tgt) :
    configBackupName dateStr "https://10.0.0.5" "report.cfg" =
      "unity_backup_" ++ dateStr ++ "-IP-10_0_0_5.cfg" ∧
    keystoreBackupName dateStr "https://10.0.0.5" "keystore.lbb" =
      "Unity-Encryption-Backup_" ++ dateStr ++ "-IP-10_0_0_5.lbb" ∧
    src ∉ moveFile src tgt fs := by
  refine ⟨?_, ?_, ?_⟩
  · show "unity_backup_" ++ dateStr ++ "-IP-" ++
      extractUnityIp "https://10.0.0.5" ++ splitextExt "report.cfg" =
      "unity_backup_" ++ dateStr ++ "-IP-10_0_0_5.cfg"
    rw [show extractUnityIp "https://10.0.0.5" = "10_0_0_5" from rfl,
      show splitextExt "report.cfg" = ".cfg" from rfl]
    simp only [String.append_assoc]
    congr 1
  · show "Unity-Encryption-Backup_" ++ dateStr ++ "-IP-" ++
      extractUnityIp "https://10.0.0.5" ++ splitextExt "keystore.lbb" =
      "Unity-Encryption-Backup_" ++ dateStr ++ "-IP-10_0_0_5.lbb"
    rw [show extractUnityIp "https://10.0.0.5" = "10_0_0_5" from rfl,
      show splitextExt "keystore.lbb" = ".lbb" from rfl]
    simp only [String.append_assoc]
    congr 1
  · intro hmem
    unfold moveFile at hmem
    rcases List.mem_cons.mp hmem with h | h
    · exact hne h
    · have hf := (List.mem_filter.mp h).2
      simp at hf

/-- Claim C4 witness: a concrete timestamp, source path and target
path. -/
theorem archive_name_and_move_witness :
    configBackupName "2025-01-02_030405" "https://10.0.0.5" "report.cfg" =
      "unity_backup_" ++ "2025-01-02_030405" ++ "-IP-10_0_0_5.cfg" ∧
    keystoreBackupName "2025-01-02_030405" "https://10.0.0.5"
        "keystore.lbb" =
      "Unity-Encryption-Backup_" ++ "2025-01-02_030405" ++
        "-IP-10_0_0_5.lbb" ∧
    "C:/Users/u/Downloads/report.cfg" ∉
      moveFile "C:/Users/u/Downloads/report.cfg"
        "E:/Unity/Configuration backups/out.cfg"
        ["C:/Users/u/Downloads/report.cfg", "other.txt"] :=
  archive_name_and_move "2025-01-02_030405"
    ["C:/Users/u/Downloads/report.cfg", "other.txt"]
    "C:/Users/u/Downloads/report.cfg"
    "E:/Unity/Configuration backups/out.cfg" (by decide)

/-- Claim C5: whatever the outcome of the run — success, a failing
step, an escaping exception, or even the SystemExit raised by
start_driver — the teardown close occurs in the trace, and it is the
last event before the process exits. -/
theorem teardown_always (e : Env) :
    Event.closeDriver ∈ (mainRun e).1 ∧
      (mainRun e).1.getLast? = some Event.closeDriver := by
  obtain ⟨d, l, bs, bd, bm, ks, kd, km, kt⟩ := e
  cases d <;> cases l <;> cases bs <;> cases bd <;> cases bm <;>
    cases ks <;> cases kd <;> cases km <;> cases kt <;> decide

set_option maxHeartbeats 1600000 in
/-- Claim C6: once past argument parsing, the password file and driver
startup, the process exits with status 0 regardless of which workflow
steps fail; only invocation errors give a non-zero status. -/
theorem exit_code_semantics (argsOk passwordFileOk : Bool) (e : Env) :
    (argsOk = true → passwordFileOk = true → e.driverStartOk = true →
      (processRun argsOk passwordFileOk e).2 = 0) ∧
    (argsOk = true → passwordFileOk = true → e.driverStartOk = false →
      (processRun argsOk passwordFileOk e).2 = 1) ∧
    (argsOk = true → passwordFileOk = false →
      (processRun argsOk passwordFileOk e).2 = 1) ∧
    (argsOk = false → (processRun argsOk passwordFileOk e).2 = 2) := by
  obtain ⟨d, l, bs, bd, bm, ks, kd, km, kt⟩ := e
  cases argsOk <;> cases passwordFileOk <;> cases d <;> cases l <;>
    cases bs <;> cases bd <;> cases bm <;> cases ks <;> cases kd <;>
    cases km <;> cases kt <;> decide

/-- Claim C6 witness: a run in which both backup actions fail still
exits with status 0. -/
theorem exit_code_semantics_witness :
    (processRun true true
      ⟨true, true, false, false, false, false, false, false, false⟩).2 =
      0 :=
  (exit_code_semantics true true
    ⟨true, true, false, false, false, false, false, false, false⟩).1
    rfl rfl rfl

/-- Claim C7 counterexample: for a two-line password file the code uses
the whole stripped content, not the trimmed first line. -/
theorem password_not_first_line :
    passwordFromFile "secret\nsecond" ≠
        specFirstLineTrimmed "secret\nsecond" ∧
      passwordFromFile "secret\nsecond" = "secret\nsecond" ∧
      specFirstLineTrimmed "secret\nsecond" = "secret" := by
  refine ⟨by decide, by decide, by decide⟩

/-- Claim C7 (amended): the password used is the entire file content
with surrounding whitespace stripped; when the content contains no
newline this coincides with the first line trimmed. -/
theorem password_whole_file_stripped (content : String)
    (h : ('\n' : Char) ∉ content.toList) :
    passwordFromFile content = specFirstLineTrimmed content := by
  unfold passwordFromFile specFirstLineTrimmed
  have hall : ∀ x ∈ content.toList, (!(x == '\n')) = true := by
    intro x hx
    have hxn : x ≠ '\n' := fun he => h (he ▸ hx)
    simp [hxn]
  rw [takeWhile_of_all (fun c => !(c == '\n')) content.toList hall]
  rfl

/-- Claim C7 amended witness: a single-line password file. -/
theorem password_whole_file_stripped_witness :
    passwordFromFile "  secret " = specFirstLineTrimmed "  secret " :=
  password_whole_file_stripped "  secret " (by decide)

/-- Claim C8: whenever the username field, the password field and the
login button all resolve (and any interstitial is dismissable), login
sleeps the fixed 20 second settle duration and reports success, and
the result is the same whether or not authentication actually
succeeded. -/
theorem login_optimistic (e : LoginEnv)
    (hsec : e.securityPage = true → e.acceptClickable = true)
    (huser : (resolveChain id e.userSel).2.isSome = true)
    (hpass : e.passSel = true)
    (hbtn : (resolveChain id e.btnSel).2.isSome = true) :
    (loginRun e).1 = true ∧ 20 ∈ (loginRun e).2 ∧
      (loginRun { e with authOk := !e.authOk }).1 = true := by
  have hu : (resolveChain id e.userSel).2.isNone = false := by
    cases h : (resolveChain id e.userSel).2 with
    | none => rw [h] at huser; simp at huser
    | some v => rfl
  have hb : (resolveChain id e.btnSel).2.isNone = false := by
    cases h : (resolveChain id e.btnSel).2 with
    | none => rw [h] at hbtn; simp at hbtn
    | some v => rfl
  cases hs : e.securityPage with
  | false => simp [loginRun, hs, hu, hb, hpass]
  | true => simp [loginRun, hs, hsec hs, hu, hb, hpass]

/-- Claim C8 witness: an environment where the second username
selector, the password field and the second button selector resolve,
with invalid credentials. -/
theorem login_optimistic_witness :
    (loginRun ⟨false, false, [false, true], true, [false, true],
        false⟩).1 = true ∧
      20 ∈ (loginRun ⟨false, false, [false, true], true, [false, true],
        false⟩).2 ∧
      (loginRun { (⟨false, false, [false, true], true, [false, true],
        false⟩ : LoginEnv) with authOk :=
          !(⟨false, false, [false, true], true, [false, true],
            false⟩ : LoginEnv).authOk }).1 = true :=
  login_optimistic
    ⟨false, false, [false, true], true, [false, true], false⟩
    (by decide) (by decide) (by decide) (by decide)

/-- Claim C9 counterexample: when the archive move of the configuration
backup fails, that action reports failure, and the sibling keystore
backup is never attempted — contradicting the claim that the failure
does not prevent the sibling from being attempted. -/
theorem move_failure_blocks_sibling :
    backupWorkflowResult
        ⟨true, true, true, true, false, true, true, true, false⟩ =
      false ∧
    Event.keystoreAttempt ∉
      (mainRun
        ⟨true, true, true, true, false, true, true, true, false⟩).1 := by
  decide

/-- Claim C9 (amended): a failing archive move makes its own action
report failure; a keystore move failure leaves the already computed
configuration-backup result untouched, but a configuration-backup move
failure makes backup_workflow report failure and then the keystore
backup is not attempted at all. -/
theorem move_failure_semantics (e : Env) :
    (e.backupMoveOk = false → backupWorkflowResult e = false) ∧
    (e.keystoreMoveOk = false → keystoreResult e = false) ∧
    (backupWorkflowResult e = false →
      Event.keystoreAttempt ∉ (mainRun e).1) ∧
    backupWorkflowResult { e with keystoreMoveOk := !e.keystoreMoveOk } =
      backupWorkflowResult e := by
  obtain ⟨d, l, bs, bd, bm, ks, kd, km, kt⟩ := e
  cases d <;> cases l <;> cases bs <;> cases bd <;> cases bm <;>
    cases ks <;> cases kd <;> cases km <;> cases kt <;> decide

/-- Claim C9 amended witness: a run whose keystore move fails. -/
theorem move_failure_semantics_witness :
    keystoreResult
        ⟨true, true, true, true, true, true, true, false, false⟩ =
      false :=
  (move_failure_semantics
    ⟨true, true, true, true, true, true, true, false, false⟩).2.1 rfl

/-- Claim C10: the configuration-backup watch accepts a new file
exactly when its lowercased name ends in .cfg, contains the substring
backup, or ends in .html, while the keystore watch accepts exactly the
names ending in .lbb; in particular any new .html file satisfies the
configuration-backup predicate and is returned by its watch. -/
theorem watch_predicates (f : String) :
    (strEndsWith (pyLower f) ".html" = true → configBackupPred f = true) ∧
    (configBackupPred f = true ↔
      (strEndsWith (pyLower f) ".cfg" = true ∨
        strContains (pyLower f) "backup" = true ∨
        strEndsWith (pyLower f) ".html" = true)) ∧
    (keystorePred f = true ↔ strEndsWith (pyLower f) ".lbb" = true) ∧
    findNewFile ["debug_page.html"] [] configBackupPred =
      some "debug_page.html" ∧
    findNewFile ["debug_page.html"] [] keystorePred = none := by
  refine ⟨?_, ?_, Iff.rfl, rfl, rfl⟩
  · intro h
    simp [configBackupPred, h]
  · simp [configBackupPred, Bool.or_eq_true, or_assoc]

/-- Claim C10 witness: a saved debug page is accepted by the
configuration-backup predicate. -/
theorem watch_predicates_witness :
    configBackupPred "saved_debug.html" = true :=
  (watch_predicates "saved_debug.html").1 (by decide)

end Unity
